import Mathlib

/-!
Shallow embedding of the gesture event pipeline of the ha-gesture-control
repository, together with proofs of the behavioural claims about it.

The embedding follows the Python source under src/goose_controller:
debouncer.py (GestureDebouncer, HoldTimeValidator), config_manager.py
(ConfigManager), ha_mcp_client.py (HomeAssistantMCPClient.execute_action and
call_service), and gesture_handler.py (GestureHandler.process_gesture).

Modelling conventions:
- Python float timestamps, thresholds and durations are modelled as rationals.
  Calls that read the wall clock in the source receive the current time as an
  explicit parameter.
- Python dicts used as per-key state maps are modelled as functions
  String → Option value; YAML dict sections are modelled as association lists.
- Fields that may be absent from a parsed YAML dict or an inbound JSON event
  are modelled as Option values.
- The outcome of the single HTTP POST issued by call_service is supplied as an
  explicit parameter of an outcome type; the natural number paired with each
  dispatch result counts how many HTTP requests were issued by the call.
-/

/-- Per-gesture state key, mirroring the Python f-string "gesture|hand"
used by both gates (debouncer.py lines 51 and 222). -/
def mkKey (gesture hand : String) : String := gesture ++ "|" ++ hand

/-- Rendering of a possibly-absent string the way a Python f-string renders
it: the value itself when present, the text None when absent. -/
def pyStr (s : Option String) : String :=
  match s with
  | none => "None"
  | some str => str

/-- State of GestureDebouncer (debouncer.py lines 15-35): the cooldown, the
per-key map of last trigger times, and the three statistics counters. -/
structure GestureDebouncer where
  cooldown_seconds : ℚ
  last_triggers : String → Option ℚ
  total_gestures : ℕ
  debounced_gestures : ℕ
  triggered_gestures : ℕ

/-- Transcription of GestureDebouncer.should_trigger (debouncer.py lines
37-76). The current time, read from the wall clock in the source, is the
explicit argument current_time. Returns the decision and the new state. -/
def should_trigger (d : GestureDebouncer) (gesture hand : String) (current_time : ℚ) :
    Bool × GestureDebouncer :=
  let d1 := { d with total_gestures := d.total_gestures + 1 }
  let key := mkKey gesture hand
  match d1.last_triggers key with
  | some last_trigger_time =>
    if current_time - last_trigger_time < d1.cooldown_seconds then
      (false, { d1 with debounced_gestures := d1.debounced_gestures + 1 })
    else
      (true, { d1 with
        last_triggers := fun k => if k = key then some current_time else d1.last_triggers k,
        triggered_gestures := d1.triggered_gestures + 1 })
  | none =>
    (true, { d1 with
      last_triggers := fun k => if k = key then some current_time else d1.last_triggers k,
      triggered_gestures := d1.triggered_gestures + 1 })

/-- State of HoldTimeValidator (debouncer.py lines 192-207): the minimum hold
time and the per-key map of first-seen times. -/
structure HoldTimeValidator where
  min_hold_time : ℚ
  gesture_start_times : String → Option ℚ

/-- Transcription of HoldTimeValidator.update_gesture (debouncer.py lines
209-237). Returns ((is_valid, hold_duration), new state). -/
def update_gesture (v : HoldTimeValidator) (gesture hand : String) (current_time : ℚ) :
    (Bool × ℚ) × HoldTimeValidator :=
  let key := mkKey gesture hand
  match v.gesture_start_times key with
  | none =>
    ((false, 0),
     { v with gesture_start_times :=
        fun k => if k = key then some current_time else v.gesture_start_times k })
  | some start_time =>
    let hold_duration := current_time - start_time
    ((decide (v.min_hold_time ≤ hold_duration), hold_duration), v)

/-- Transcription of HoldTimeValidator.clear_gesture (debouncer.py lines
239-249): removes the key's entry, leaving other keys untouched. -/
def clear_gesture (v : HoldTimeValidator) (gesture hand : String) : HoldTimeValidator :=
  let key := mkKey gesture hand
  { v with gesture_start_times :=
      fun k => if k = key then none else v.gesture_start_times k }

/-- Action dict of a gesture mapping (config YAML): entity_id and service may
be absent (validation checks their presence), data defaults to the empty
dict in execute_action. -/
structure RawAction where
  entity_id : Option String
  service : Option String
  data : List (String × String)
deriving DecidableEq

/-- One entry of gesture_mappings as parsed from YAML; every field may be
absent, which validate_config detects. -/
structure RawMapping where
  name : Option String
  gesture : Option String
  hand : Option String
  action : Option RawAction
deriving DecidableEq

/-- Parsed YAML configuration file: the three sections read by
ConfigManager.load_config, each possibly absent. The homeassistant section
is a dict of string values, gesture_recognition a dict of numeric tunables. -/
structure RawConfig where
  homeassistant : Option (List (String × String))
  gesture_recognition : Option (List (String × ℚ))
  gesture_mappings : Option (List RawMapping)
deriving DecidableEq

/-- Mutable state of ConfigManager (config_manager.py lines 31-35): the last
parsed file and the three extracted sections. -/
structure ConfigManager where
  config : Option RawConfig
  gesture_mappings : List RawMapping
  ha_config : List (String × String)
  gesture_settings : List (String × ℚ)
deriving DecidableEq

/-- Validity of one gesture mapping, as checked by the loop of
ConfigManager.validate_config (config_manager.py lines 110-132): the four
required fields are present, hand is Left, Right or Either, and the action
dict has entity_id and service keys. An unknown gesture name only logs a
warning in the source and does not fail validation, so it is not checked. -/
def validMappingEntry (mp : RawMapping) : Bool :=
  mp.name.isSome && mp.gesture.isSome && mp.hand.isSome && mp.action.isSome &&
  (mp.hand == some "Left" || mp.hand == some "Right" || mp.hand == some "Either") &&
  (match mp.action with
   | some a => a.entity_id.isSome && a.service.isSome
   | none => false)

/-- Transcription of ConfigManager.validate_config (config_manager.py lines
75-135): the homeassistant and gesture_recognition sections are non-empty,
mcp_url and token_env_var are present, the confidence threshold (default
4/5, that is 0.8) lies in [0, 1], and every mapping entry is valid. -/
def validate_config (m : ConfigManager) : Bool :=
  !m.ha_config.isEmpty &&
  !m.gesture_settings.isEmpty &&
  (List.lookup "mcp_url" m.ha_config).isSome &&
  (List.lookup "token_env_var" m.ha_config).isSome &&
  (decide (0 ≤ (List.lookup "confidence_threshold" m.gesture_settings).getD (4/5) ∧
           (List.lookup "confidence_threshold" m.gesture_settings).getD (4/5) ≤ 1)) &&
  m.gesture_mappings.all validMappingEntry

/-- Result of attempting to read and parse the configuration file, the three
ways the try block of load_config can go before extraction: the file is
missing, the YAML fails to parse, or parsing yields a document (none models
a YAML document that parses to null, on which the attribute accesses in
load_config raise and are caught by the generic except clause). -/
inductive FileRead where
  | missing
  | parseError
  | parsed (contents : Option RawConfig)
deriving DecidableEq

/-- Section extraction performed by load_config (config_manager.py lines
52-55) before any validation: the three instance fields are overwritten with
the sections of the newly parsed file, absent sections defaulting to empty. -/
def extract_sections (m : ConfigManager) (c : RawConfig) : ConfigManager :=
  { m with
    config := some c,
    ha_config := c.homeassistant.getD [],
    gesture_settings := c.gesture_recognition.getD [],
    gesture_mappings := c.gesture_mappings.getD [] }

/-- Transcription of ConfigManager.load_config (config_manager.py lines
37-73). A missing file or a YAML parse error returns false before any field
is assigned; otherwise the sections are extracted into the instance fields
first and validation runs on the already-updated state. -/
def load_config (m : ConfigManager) (file : FileRead) : Bool × ConfigManager :=
  match file with
  | .missing => (false, m)
  | .parseError => (false, m)
  | .parsed none => (false, { m with config := none })
  | .parsed (some c) =>
    let m1 := extract_sections m c
    if validate_config m1 then (true, m1) else (false, m1)

/-- Transcription of ConfigManager.reload_config (config_manager.py lines
273-281): it just delegates to load_config on the current file contents. -/
def reload_config (m : ConfigManager) (file : FileRead) : Bool × ConfigManager :=
  load_config m file

/-- Match condition of the resolver loop in
ConfigManager.get_mapping_for_gesture (config_manager.py lines 183-191):
the gesture labels are equal and the hand is Either or equals the event
hand. Validated configurations always carry both fields. -/
def mappingMatches (mp : RawMapping) (gesture hand : String) : Bool :=
  mp.gesture == some gesture && (mp.hand == some "Either" || mp.hand == some hand)

/-- Transcription of ConfigManager.get_mapping_for_gesture (config_manager.py
lines 172-193): first mapping in declared order satisfying mappingMatches,
none when no mapping matches. -/
def get_mapping_for_gesture (m : ConfigManager) (gesture hand : String) : Option RawMapping :=
  m.gesture_mappings.find? (fun mp => mappingMatches mp gesture hand)

/-- Outcome of the single HTTP POST issued by call_service (ha_mcp_client.py
line 135): a response with a status code and body, a timeout, a transport
error, or any other exception raised during the call. -/
inductive HttpOutcome where
  | response (status_code : ℕ) (body : String)
  | timeout
  | httpError (msg : String)
  | otherError (msg : String)
deriving DecidableEq

/-- Result dict built by call_service and execute_action: the success flag
and the keys each branch of the source populates; keys a branch does not set
are none. -/
structure ActionResult where
  success : Bool
  entity_id : Option String
  service : Option String
  message : Option String
  error : Option String
  status_code : Option ℕ
  response : Option String
deriving DecidableEq

/-- Truthiness of an optional string under Python: false when the value is
absent or the empty string. -/
def pyTruthy (s : Option String) : Bool :=
  match s with
  | none => false
  | some str => !str.isEmpty

/-- Transcription of HomeAssistantMCPClient.call_service (ha_mcp_client.py
lines 102-188). The source issues exactly one POST inside the try block and
turns every outcome of it into a returned dict: status 200 is success, any
other status a failure with the status code, and the three except clauses
(timeout, transport error, any other exception) each return a failure dict.
No branch raises and no branch issues a second request, so the paired count
of HTTP requests is 1 on every path. The URL and payload the source builds
feed only the POST itself and do not appear in the result. -/
def call_service (domain service entity_id : String) (_data : List (String × String))
    (outcome : HttpOutcome) : ActionResult × ℕ :=
  match outcome with
  | .response 200 body =>
    ({ success := true, entity_id := some entity_id,
       service := some (domain ++ "." ++ service),
       message := some (entity_id ++ " - " ++ service ++ " executed successfully"),
       error := none, status_code := none, response := some body }, 1)
  | .response code _ =>
    ({ success := false, entity_id := some entity_id,
       service := some (domain ++ "." ++ service),
       message := none,
       error := some ("Service call failed: HTTP " ++ toString code),
       status_code := some code, response := none }, 1)
  | .timeout =>
    ({ success := false, entity_id := some entity_id,
       service := some (domain ++ "." ++ service),
       message := none, error := some "Service call timed out",
       status_code := none, response := none }, 1)
  | .httpError msg =>
    ({ success := false, entity_id := some entity_id,
       service := some (domain ++ "." ++ service),
       message := none, error := some ("HTTP error: " ++ msg),
       status_code := none, response := none }, 1)
  | .otherError msg =>
    ({ success := false, entity_id := some entity_id,
       service := some (domain ++ "." ++ service),
       message := none, error := some ("Unexpected error: " ++ msg),
       status_code := none, response := none }, 1)

/-- Transcription of HomeAssistantMCPClient.execute_action (ha_mcp_client.py
lines 230-256): when entity_id or service is falsy (absent or empty) it
returns a failure dict carrying only success and error, issuing zero HTTP
requests; otherwise the domain is the part of entity_id before the first
dot and the call is delegated to call_service. -/
def execute_action (action : RawAction) (outcome : HttpOutcome) : ActionResult × ℕ :=
  if !pyTruthy action.entity_id || !pyTruthy action.service then
    ({ success := false, entity_id := none, service := none, message := none,
       error := some "Missing entity_id or service in action",
       status_code := none, response := none }, 0)
  else
    let eid := action.entity_id.getD ""
    let domain := (eid.splitOn ".").headD ""
    call_service domain (action.service.getD "") eid action.data outcome

/-- Statistics counters of GestureHandler (gesture_handler.py lines 65-72). -/
structure Stats where
  gestures_received : ℕ
  gestures_below_threshold : ℕ
  gestures_debounced : ℕ
  actions_triggered : ℕ
  actions_succeeded : ℕ
  actions_failed : ℕ
deriving DecidableEq

/-- Inbound gesture event dict as decoded from one JSON line; every key may
be absent. The timestamp field is carried but never read by process_gesture,
which uses the wall clock inside the gates instead. -/
structure GestureData where
  gesture : Option String
  hand : Option String
  confidence : Option ℚ
  timestamp : Option ℚ
deriving DecidableEq

/-- State of GestureHandler that process_gesture reads or writes
(gesture_handler.py lines 24-74): the configuration, the cached confidence
threshold, the two gates and the statistics counters. -/
structure GestureHandler where
  config_manager : ConfigManager
  confidence_threshold : ℚ
  hold_validator : HoldTimeValidator
  debouncer : GestureDebouncer
  stats : Stats

/-- Transcription of GestureHandler.process_gesture (gesture_handler.py lines
96-179). The wall-clock time at which the event is processed is the explicit
argument now; the outcome of the HTTP POST a dispatch would issue is the
explicit argument outcome. Returns the value returned to the caller (none on
every early exit), the number of HTTP requests issued, and the new state.
The gesture and action callbacks of the source only emit the event outward
and have every exception caught and logged (lines 119-123 and 173-177), so
they neither alter state nor the returned value and are not modelled. The
source reads mapping[action] by direct indexing, which a validated
configuration always satisfies; an absent action field is defaulted here. -/
def process_gesture (gh : GestureHandler) (gesture_data : GestureData) (now : ℚ)
    (outcome : HttpOutcome) : Option ActionResult × ℕ × GestureHandler :=
  let gh1 := { gh with stats :=
    { gh.stats with gestures_received := gh.stats.gestures_received + 1 } }
  let confidence := gesture_data.confidence.getD 0
  if confidence < gh1.confidence_threshold then
    (none, 0, { gh1 with stats :=
      { gh1.stats with gestures_below_threshold := gh1.stats.gestures_below_threshold + 1 } })
  else
    let hres := update_gesture gh1.hold_validator (pyStr gesture_data.gesture)
      (pyStr gesture_data.hand) now
    let gh2 := { gh1 with hold_validator := hres.2 }
    if !hres.1.1 then (none, 0, gh2)
    else
      let dres := should_trigger gh2.debouncer (pyStr gesture_data.gesture)
        (pyStr gesture_data.hand) now
      let gh3 := { gh2 with debouncer := dres.2 }
      if !dres.1 then
        (none, 0, { gh3 with stats :=
          { gh3.stats with gestures_debounced := gh3.stats.gestures_debounced + 1 } })
      else
        match get_mapping_for_gesture gh3.config_manager (pyStr gesture_data.gesture)
          (pyStr gesture_data.hand) with
        | none => (none, 0, gh3)
        | some mapping =>
          let gh4 := { gh3 with stats :=
            { gh3.stats with actions_triggered := gh3.stats.actions_triggered + 1 } }
          let action := mapping.action.getD { entity_id := none, service := none, data := [] }
          let res := execute_action action outcome
          let gh5 :=
            if res.1.success then
              { gh4 with stats :=
                { gh4.stats with actions_succeeded := gh4.stats.actions_succeeded + 1 } }
            else
              { gh4 with stats :=
                { gh4.stats with actions_failed := gh4.stats.actions_failed + 1 } }
          (some res.1, res.2, gh5)

/-- Sequential processing of a list of gesture events, each paired with the
wall-clock time of its processing and the HTTP outcome its dispatch would
observe, threading the handler state through. -/
def processAll (gh : GestureHandler) : List (GestureData × ℚ × HttpOutcome) → GestureHandler
  | [] => gh
  | e :: rest => processAll (process_gesture gh e.1 e.2.1 e.2.2).2.2 rest

/-- One call of the debounce gate in a run: the gesture, the hand and the
wall-clock time of the call. -/
structure DebounceCall where
  gesture : String
  hand : String
  time : ℚ
deriving DecidableEq

/-- Log of a sequence of should_trigger calls on a debouncer: each call
paired with its decision, state threaded through. -/
def runDebouncer (d : GestureDebouncer) : List DebounceCall → List (DebounceCall × Bool)
  | [] => []
  | c :: rest =>
    let r := should_trigger d c.gesture c.hand c.time
    (c, r.1) :: runDebouncer r.2 rest

/-- Times of the calls for a given key that returned true (recorded
triggers) in a run log, in order. -/
def triggerTimes (key : String) (log : List (DebounceCall × Bool)) : List ℚ :=
  log.filterMap (fun e => if mkKey e.1.gesture e.1.hand == key && e.2 then some e.1.time else none)

/-- Sample handler state used by the concrete witnesses: confidence
threshold 1, minimum hold time 2, cooldown 2, empty gate maps and zeroed
counters. -/
def sampleHandler : GestureHandler :=
  ⟨⟨none, [], [], []⟩, 1, ⟨2, fun _ => none⟩, ⟨2, fun _ => none, 0, 0, 0⟩, ⟨0, 0, 0, 0, 0, 0⟩⟩

/-- Sample handler with an existing hold state entry for Open_Palm|Right
first seen at time 5. -/
def sampleHandlerHeld : GestureHandler :=
  { sampleHandler with hold_validator :=
      ⟨2, fun k => if k = "Open_Palm|Right" then some 5 else none⟩ }

/-- Sample mapping with hand Either, as listed first in the resolver
witness configuration. -/
def eitherMapping : RawMapping :=
  ⟨some "palm_either", some "Open_Palm", some "Either", some ⟨some "light.a", some "turn_on", []⟩⟩

/-- Sample mapping with hand Right for the same gesture, listed second. -/
def rightMapping : RawMapping :=
  ⟨some "palm_right", some "Open_Palm", some "Right", some ⟨some "light.b", some "turn_on", []⟩⟩

/-- Valid sample mapping used in the prior configuration of the C1 analysis. -/
def validSampleMapping : RawMapping :=
  ⟨some "palm_light", some "Open_Palm", some "Either", some ⟨some "light.l", some "turn_on", []⟩⟩

/-- Sample mapping whose hand value Middle fails validation. -/
def invalidHandMapping : RawMapping :=
  ⟨some "bad", some "Open_Palm", some "Middle", some ⟨some "light.l", some "turn_on", []⟩⟩

/-- A configuration file that passes validation. -/
def goodConfig : RawConfig :=
  ⟨some [("mcp_url", "u"), ("token_env_var", "t")],
   some [("confidence_threshold", 1)], some [validSampleMapping]⟩

/-- A replacement configuration file that fails validation because its one
mapping has the invalid hand value Middle. -/
def badConfig : RawConfig :=
  ⟨some [("mcp_url", "u"), ("token_env_var", "t")],
   some [("confidence_threshold", 1)], some [invalidHandMapping]⟩

/-- Manager state after a successful load of the good configuration: the
prior valid configuration of the C1 analysis. -/
def priorManager : ConfigManager :=
  ⟨some goodConfig, [validSampleMapping], [("mcp_url", "u"), ("token_env_var", "t")],
   [("confidence_threshold", 1)]⟩

/-! Helper lemmas about the two gates, shared by several claim proofs. -/

theorem should_trigger_cooldown_eq (d : GestureDebouncer) (g h : String) (now : ℚ) :
    (should_trigger d g h now).2.cooldown_seconds = d.cooldown_seconds := by
  unfold should_trigger
  rcases hd : d.last_triggers (mkKey g h) with _ | last
  · simp [hd]
  · simp only [hd]
    split <;> rfl

theorem should_trigger_true_iff (d : GestureDebouncer) (g h : String) (now : ℚ) :
    (should_trigger d g h now).1 = true ↔
      (d.last_triggers (mkKey g h) = none ∨
       ∃ last, d.last_triggers (mkKey g h) = some last ∧ d.cooldown_seconds ≤ now - last) := by
  unfold should_trigger
  rcases hd : d.last_triggers (mkKey g h) with _ | last
  · simp [hd]
  · simp only [hd]
    split_ifs with hlt
    · simp [hd, not_le.mpr hlt]
    · simp [hd, not_lt.mp hlt]

theorem should_trigger_true_state (d : GestureDebouncer) (g h : String) (now : ℚ)
    (htrue : (should_trigger d g h now).1 = true) :
    (should_trigger d g h now).2.last_triggers (mkKey g h) = some now ∧
    ∀ k, k ≠ mkKey g h → (should_trigger d g h now).2.last_triggers k = d.last_triggers k := by
  unfold should_trigger at htrue ⊢
  rcases hd : d.last_triggers (mkKey g h) with _ | last
  · simp only [hd]
    exact ⟨by simp, fun k hk => by simp [hk]⟩
  · simp only [hd] at htrue ⊢
    split_ifs at htrue ⊢ with hlt
    exact ⟨by simp, fun k hk => by simp [hk]⟩

theorem should_trigger_false_state (d : GestureDebouncer) (g h : String) (now : ℚ)
    (hfalse : (should_trigger d g h now).1 = false) :
    (should_trigger d g h now).2.last_triggers = d.last_triggers := by
  unfold should_trigger at hfalse ⊢
  rcases hd : d.last_triggers (mkKey g h) with _ | last
  · simp [hd] at hfalse
  · simp only [hd] at hfalse ⊢
    split_ifs at hfalse ⊢ with hlt
    rfl

/-- Claim C2: for every key and time now, if no hold state exists for the
key, update_gesture creates one with first-seen time now and returns
(false, 0) regardless of the minimum hold time; otherwise it returns the
held-for duration now minus the stored first-seen time, is satisfied exactly
when that duration reaches the minimum (the boundary case accepted), and
leaves the stored state, including the first-seen time, unmodified. -/
theorem holdGate_update_spec (v : HoldTimeValidator) (gesture hand : String) (now : ℚ) :
    (v.gesture_start_times (mkKey gesture hand) = none →
      (update_gesture v gesture hand now).1 = (false, 0) ∧
      (update_gesture v gesture hand now).2.gesture_start_times (mkKey gesture hand) = some now ∧
      (update_gesture v gesture hand now).2.min_hold_time = v.min_hold_time ∧
      ∀ k, k ≠ mkKey gesture hand →
        (update_gesture v gesture hand now).2.gesture_start_times k = v.gesture_start_times k) ∧
    (∀ start, v.gesture_start_times (mkKey gesture hand) = some start →
      (update_gesture v gesture hand now).1 = (decide (v.min_hold_time ≤ now - start), now - start) ∧
      ((update_gesture v gesture hand now).1.1 = true ↔ v.min_hold_time ≤ now - start) ∧
      (update_gesture v gesture hand now).2 = v) := by
  constructor
  · intro hnone
    unfold update_gesture
    simp only [hnone]
    refine ⟨by simp, by simp, by simp, fun k hk => by simp [hk]⟩
  · intro start hstart
    unfold update_gesture
    simp only [hstart]
    refine ⟨by simp, by simp, by simp⟩

/-- Witness for C2: with minimum hold time 2 and key first seen at time 5,
the first call is rejected with duration 0, a call at time 6 is rejected
with duration 1, and a call at the boundary time 7 is accepted with
duration 2. -/
theorem holdGate_update_spec_witness :
    (update_gesture ⟨2, fun _ => none⟩ "g" "h" 5).1 = (false, 0) ∧
    (update_gesture (update_gesture ⟨2, fun _ => none⟩ "g" "h" 5).2 "g" "h" 6).1 = (false, 1) ∧
    (update_gesture (update_gesture ⟨2, fun _ => none⟩ "g" "h" 5).2 "g" "h" 7).1 = (true, 2) := by
  have h5 := holdGate_update_spec ⟨2, fun _ => none⟩ "g" "h" 5
  have hkey : (update_gesture (⟨2, fun _ => none⟩ : HoldTimeValidator) "g" "h" 5).2.gesture_start_times
      (mkKey "g" "h") = some 5 := by
    simp [update_gesture, mkKey]
  have h6 := (holdGate_update_spec (update_gesture ⟨2, fun _ => none⟩ "g" "h" 5).2 "g" "h" 6).2 5 hkey
  have h7 := (holdGate_update_spec (update_gesture ⟨2, fun _ => none⟩ "g" "h" 5).2 "g" "h" 7).2 5 hkey
  refine ⟨(h5.1 rfl).1, ?_, ?_⟩
  · rw [h6.1]
    simp +decide [update_gesture, mkKey, Rat.sub_def, Rat.normalize]
  · rw [h7.1]
    simp +decide [update_gesture, mkKey, Rat.sub_def, Rat.normalize]

/-- Claim C3: should_trigger returns true exactly when no debounce state
exists for the key or the elapsed time since the stored last trigger reaches
the cooldown (boundary included); when it returns true it records the call
time as the key's last trigger, leaving other keys untouched, and when it
returns false the stored last-trigger map is unchanged for every key. -/
theorem debounceGate_should_trigger_spec (d : GestureDebouncer) (gesture hand : String) (now : ℚ) :
    ((should_trigger d gesture hand now).1 = true ↔
      (d.last_triggers (mkKey gesture hand) = none ∨
       ∃ last, d.last_triggers (mkKey gesture hand) = some last ∧
         d.cooldown_seconds ≤ now - last)) ∧
    ((should_trigger d gesture hand now).1 = true →
      (should_trigger d gesture hand now).2.last_triggers (mkKey gesture hand) = some now ∧
      ∀ k, k ≠ mkKey gesture hand →
        (should_trigger d gesture hand now).2.last_triggers k = d.last_triggers k) ∧
    ((should_trigger d gesture hand now).1 = false →
      (should_trigger d gesture hand now).2.last_triggers = d.last_triggers) :=
  ⟨should_trigger_true_iff d gesture hand now,
   fun h => should_trigger_true_state d gesture hand now h,
   fun h => should_trigger_false_state d gesture hand now h⟩

/-- Witness for C3: with cooldown 2 and no prior state, a call at time 5
triggers and records 5; a call at time 6 is debounced with the map
unchanged; a call at the boundary time 7 triggers again. -/
theorem debounceGate_should_trigger_spec_witness :
    (should_trigger ⟨2, fun _ => none, 0, 0, 0⟩ "g" "h" 5).1 = true ∧
    (should_trigger ⟨2, fun _ => none, 0, 0, 0⟩ "g" "h" 5).2.last_triggers (mkKey "g" "h") = some 5 ∧
    (should_trigger (should_trigger ⟨2, fun _ => none, 0, 0, 0⟩ "g" "h" 5).2 "g" "h" 6).1 = false ∧
    (should_trigger (should_trigger ⟨2, fun _ => none, 0, 0, 0⟩ "g" "h" 5).2 "g" "h" 6).2.last_triggers =
      (should_trigger ⟨2, fun _ => none, 0, 0, 0⟩ "g" "h" 5).2.last_triggers ∧
    (should_trigger (should_trigger ⟨2, fun _ => none, 0, 0, 0⟩ "g" "h" 5).2 "g" "h" 7).1 = true := by
  have hs := debounceGate_should_trigger_spec ⟨2, fun _ => none, 0, 0, 0⟩ "g" "h" 5
  have h1 : (should_trigger ⟨2, fun _ => none, 0, 0, 0⟩ "g" "h" 5).1 = true := hs.1.mpr (Or.inl rfl)
  have hkey := (hs.2.1 h1).1
  have h6false : (should_trigger (should_trigger ⟨2, fun _ => none, 0, 0, 0⟩ "g" "h" 5).2 "g" "h" 6).1 = false := by
    simp +decide [should_trigger, mkKey, Rat.sub_def, Rat.normalize]
  have hs6 := debounceGate_should_trigger_spec (should_trigger ⟨2, fun _ => none, 0, 0, 0⟩ "g" "h" 5).2 "g" "h" 6
  have hs7 := debounceGate_should_trigger_spec (should_trigger ⟨2, fun _ => none, 0, 0, 0⟩ "g" "h" 5).2 "g" "h" 7
  refine ⟨h1, hkey, h6false, hs6.2.2 h6false, hs7.1.mpr (Or.inr ⟨5, hkey, ?_⟩)⟩
  simp +decide [should_trigger, mkKey, Rat.sub_def, Rat.normalize]

theorem runDebouncer_cons (d : GestureDebouncer) (c : DebounceCall) (rest : List DebounceCall) :
    runDebouncer d (c :: rest) =
      (c, (should_trigger d c.gesture c.hand c.time).1) ::
        runDebouncer (should_trigger d c.gesture c.hand c.time).2 rest := rfl

theorem triggerTimes_cons (key : String) (c : DebounceCall) (b : Bool)
    (log : List (DebounceCall × Bool)) :
    triggerTimes key ((c, b) :: log) =
      if mkKey c.gesture c.hand == key && b then c.time :: triggerTimes key log
      else triggerTimes key log := by
  unfold triggerTimes
  rw [List.filterMap_cons]
  split_ifs with hb
  · simp [hb]
  · simp [hb]

/-- Invariant of a run of the debounce gate, by induction over the calls:
for a fixed key, the recorded trigger times are call times, every recorded
trigger is at least the cooldown after any last-trigger entry the key had
when the run began, and consecutive recorded triggers are ordered and
separated by at least the cooldown. -/
theorem runDebouncer_inv (key : String) :
    ∀ (events : List DebounceCall) (d : GestureDebouncer),
      List.Sorted (· ≤ ·) (events.map DebounceCall.time) →
      (∀ t ∈ triggerTimes key (runDebouncer d events), t ∈ events.map DebounceCall.time) ∧
      (∀ last, d.last_triggers key = some last →
        ∀ t ∈ triggerTimes key (runDebouncer d events), d.cooldown_seconds ≤ t - last) ∧
      List.Chain' (fun a b => a ≤ b ∧ d.cooldown_seconds ≤ b - a)
        (triggerTimes key (runDebouncer d events)) := by
  intro events
  induction events with
  | nil => intro d _; simp [runDebouncer, triggerTimes]
  | cons c rest ih =>
    intro d hsorted
    rw [List.map_cons, List.sorted_cons] at hsorted
    obtain ⟨hhead, hrest⟩ := hsorted
    have hcool := should_trigger_cooldown_eq d c.gesture c.hand c.time
    obtain ⟨ih0, ih1, ih2⟩ := ih (should_trigger d c.gesture c.hand c.time).2 hrest
    rw [hcool] at ih1 ih2
    rw [runDebouncer_cons, triggerTimes_cons]
    rcases hb : (mkKey c.gesture c.hand == key && (should_trigger d c.gesture c.hand c.time).1)
      with _ | _
    · -- the head call is not a recorded trigger for this key
      simp only [Bool.false_eq_true, if_false]
      have hkeep : (should_trigger d c.gesture c.hand c.time).2.last_triggers key =
          d.last_triggers key := by
        rcases Bool.and_eq_false_iff.mp hb with hk | hr
        · rcases hr2 : (should_trigger d c.gesture c.hand c.time).1 with _ | _
          · exact congrFun (should_trigger_false_state d c.gesture c.hand c.time hr2) key
          · exact (should_trigger_true_state d c.gesture c.hand c.time hr2).2 key
              (fun he => by simp [he] at hk)
        · exact congrFun (should_trigger_false_state d c.gesture c.hand c.time hr) key
      refine ⟨?_, ?_, ih2⟩
      · intro t ht
        exact List.mem_cons_of_mem _ (ih0 t ht)
      · intro last hlast t ht
        exact ih1 last (hkeep.trans hlast) t ht
    · -- the head call is a recorded trigger for this key
      simp only [hb, if_true]
      obtain ⟨hkeq, htr⟩ := Bool.and_eq_true_iff.mp hb
      have hkeq' : mkKey c.gesture c.hand = key := by simpa using hkeq
      have hrec : (should_trigger d c.gesture c.hand c.time).2.last_triggers key = some c.time := by
        rw [← hkeq']
        exact (should_trigger_true_state d c.gesture c.hand c.time htr).1
      have hmono : ∀ t ∈ triggerTimes key
          (runDebouncer (should_trigger d c.gesture c.hand c.time).2 rest), c.time ≤ t := by
        intro t ht
        exact hhead t (ih0 t ht)
      have hsep : ∀ t ∈ triggerTimes key
          (runDebouncer (should_trigger d c.gesture c.hand c.time).2 rest),
          d.cooldown_seconds ≤ t - c.time := fun t ht => ih1 c.time hrec t ht
      refine ⟨?_, ?_, ?_⟩
      · intro t ht
        rcases List.mem_cons.mp ht with h | h
        · exact h ▸ List.mem_cons_self _ _
        · exact List.mem_cons_of_mem _ (ih0 t h)
      · intro last hlast t ht
        have hheadsep : d.cooldown_seconds ≤ c.time - last := by
          rcases (should_trigger_true_iff d c.gesture c.hand c.time).mp htr with hn | ⟨l, hl, hcd⟩
          · rw [hkeq', hlast] at hn; exact absurd hn (by simp)
          · rw [hkeq', hlast] at hl
            obtain rfl : last = l := by injection hl
            exact hcd
        rcases List.mem_cons.mp ht with h | h
        · exact h ▸ hheadsep
        · have := hmono t h
          linarith
      · rw [List.chain'_cons']
        refine ⟨?_, ih2⟩
        intro y hy
        have hy' : y ∈ triggerTimes key
            (runDebouncer (should_trigger d c.gesture c.hand c.time).2 rest) :=
          List.mem_of_mem_head? hy
        exact ⟨hmono y hy', hsep y hy'⟩

/-- Claim C4: over any sequence of should_trigger calls with non-decreasing
timestamps, any two calls for the same key that returned true are separated
by at least the (fixed) cooldown. -/
theorem debounce_triggers_separated (d : GestureDebouncer) (events : List DebounceCall)
    (key : String) (hsorted : List.Sorted (· ≤ ·) (events.map DebounceCall.time)) :
    List.Pairwise (fun a b => d.cooldown_seconds ≤ b - a)
      (triggerTimes key (runDebouncer d events)) := by
  have h := (runDebouncer_inv key events d hsorted).2.2
  haveI : IsTrans ℚ (fun a b : ℚ => a ≤ b ∧ d.cooldown_seconds ≤ b - a) :=
    ⟨fun a b c hab hbc => ⟨hab.1.trans hbc.1, by
      have h1 := hab.1
      have h2 := hbc.2
      linarith⟩⟩
  exact (List.chain'_iff_pairwise.mp h).imp (fun hab => hab.2)

/-- Witness for C4: cooldown 2, three calls for one key at times 0, 1, 3;
the recorded triggers are at 0 and 3, separated by 3 which is at least 2. -/
theorem debounce_triggers_separated_witness :
    List.Pairwise (fun a b : ℚ => (2:ℚ) ≤ b - a)
      (triggerTimes "g|h" (runDebouncer ⟨2, fun _ => none, 0, 0, 0⟩
        [⟨"g", "h", 0⟩, ⟨"g", "h", 1⟩, ⟨"g", "h", 3⟩])) :=
  debounce_triggers_separated ⟨2, fun _ => none, 0, 0, 0⟩
    [⟨"g", "h", 0⟩, ⟨"g", "h", 1⟩, ⟨"g", "h", 3⟩] "g|h" (by decide)

theorem process_gesture_low (gh : GestureHandler) (gd : GestureData) (now : ℚ) (o : HttpOutcome)
    (h : gd.confidence.getD 0 < gh.confidence_threshold) :
    process_gesture gh gd now o =
      (none, 0, { gh with stats := { gh.stats with
        gestures_received := gh.stats.gestures_received + 1,
        gestures_below_threshold := gh.stats.gestures_below_threshold + 1 } }) := by
  unfold process_gesture
  rw [if_pos h]

theorem update_gesture_preserves (v : HoldTimeValidator) (g h : String) (now : ℚ) (k : String)
    (ts : ℚ) (hk : v.gesture_start_times k = some ts) :
    (update_gesture v g h now).2.gesture_start_times k = some ts := by
  unfold update_gesture
  rcases hv : v.gesture_start_times (mkKey g h) with _ | start
  · simp only [hv]
    by_cases hkey : k = mkKey g h
    · rw [hkey, hv] at hk
      cases hk
    · simpa [hkey] using hk
  · simp only [hv]
    exact hk

theorem process_gesture_hold_cases (gh : GestureHandler) (gd : GestureData) (now : ℚ)
    (o : HttpOutcome) :
    (process_gesture gh gd now o).2.2.hold_validator = gh.hold_validator ∨
    (process_gesture gh gd now o).2.2.hold_validator =
      (update_gesture gh.hold_validator (pyStr gd.gesture) (pyStr gd.hand) now).2 := by
  simp only [process_gesture]
  repeat' split
  all_goals first
  | exact Or.inl rfl
  | exact Or.inr rfl

/-- Claim C5: an event below the confidence threshold stops processing
after incrementing the received and below-threshold counters, returning no
result, issuing no HTTP request and touching neither gate; consequently a
run of any number of such events leaves the hold-time state and the
debounce state exactly as they were. -/
theorem lowConfidence_preserves_gates :
    (∀ (gh : GestureHandler) (gd : GestureData) (now : ℚ) (o : HttpOutcome),
      gd.confidence.getD 0 < gh.confidence_threshold →
      process_gesture gh gd now o =
        (none, 0, { gh with stats := { gh.stats with
          gestures_received := gh.stats.gestures_received + 1,
          gestures_below_threshold := gh.stats.gestures_below_threshold + 1 } })) ∧
    ∀ (events : List (GestureData × ℚ × HttpOutcome)) (gh : GestureHandler),
      (∀ e ∈ events, e.1.confidence.getD 0 < gh.confidence_threshold) →
      (processAll gh events).hold_validator = gh.hold_validator ∧
      (processAll gh events).debouncer = gh.debouncer := by
  refine ⟨process_gesture_low, ?_⟩
  intro events
  induction events with
  | nil => intro gh _; exact ⟨rfl, rfl⟩
  | cons e rest ih =>
    intro gh hlow
    have he := hlow e (List.mem_cons_self _ _)
    have hstep := process_gesture_low gh e.1 e.2.1 e.2.2 he
    have hunfold : processAll gh (e :: rest) =
        processAll (process_gesture gh e.1 e.2.1 e.2.2).2.2 rest := rfl
    rw [hunfold, hstep]
    exact ih _ (fun e' he' => hlow e' (List.mem_cons_of_mem _ he'))

/-- Claim C9: process_gesture never removes or overwrites an existing hold
state entry: a key first seen at some time keeps exactly that first-seen
time across any sequence of processed events; only the explicit clear and
reset operations, which event processing never invokes, can remove it. -/
theorem hold_state_persists :
    ∀ (events : List (GestureData × ℚ × HttpOutcome)) (gh : GestureHandler) (k : String) (ts : ℚ),
      gh.hold_validator.gesture_start_times k = some ts →
      (processAll gh events).hold_validator.gesture_start_times k = some ts := by
  intro events
  induction events with
  | nil => intro gh k ts h; exact h
  | cons e rest ih =>
    intro gh k ts h
    have hstep : (process_gesture gh e.1 e.2.1 e.2.2).2.2.hold_validator.gesture_start_times k =
        some ts := by
      rcases process_gesture_hold_cases gh e.1 e.2.1 e.2.2 with hc | hc
      · rw [hc]; exact h
      · rw [hc]; exact update_gesture_preserves _ _ _ _ _ _ h
    exact ih _ k ts hstep

/-- Claim C10: an event with no confidence field is treated as confidence 0,
so with a positive threshold it is counted below threshold and processing
stops: no result, no HTTP request, gate state untouched. -/
theorem missing_confidence_below_threshold (gh : GestureHandler) (gd : GestureData) (now : ℚ)
    (o : HttpOutcome) (hconf : gd.confidence = none) (hthr : 0 < gh.confidence_threshold) :
    process_gesture gh gd now o =
      (none, 0, { gh with stats := { gh.stats with
        gestures_received := gh.stats.gestures_received + 1,
        gestures_below_threshold := gh.stats.gestures_below_threshold + 1 } }) :=
  process_gesture_low gh gd now o (by rw [hconf]; simpa using hthr)

/-- Witness for C5: two low-confidence events (confidence 0 and a missing
confidence) leave both gate states of the sample handler unchanged. -/
theorem lowConfidence_preserves_gates_witness :
    process_gesture sampleHandler ⟨some "Open_Palm", some "Right", some 0, none⟩ 5
        HttpOutcome.timeout =
      (none, 0, { sampleHandler with stats := { sampleHandler.stats with
        gestures_received := sampleHandler.stats.gestures_received + 1,
        gestures_below_threshold := sampleHandler.stats.gestures_below_threshold + 1 } }) ∧
    (processAll sampleHandler
      [(⟨some "Open_Palm", some "Right", some 0, none⟩, 5, HttpOutcome.timeout),
       (⟨some "Victory", some "Left", none, none⟩, 6, HttpOutcome.timeout)]).hold_validator =
      sampleHandler.hold_validator ∧
    (processAll sampleHandler
      [(⟨some "Open_Palm", some "Right", some 0, none⟩, 5, HttpOutcome.timeout),
       (⟨some "Victory", some "Left", none, none⟩, 6, HttpOutcome.timeout)]).debouncer =
      sampleHandler.debouncer :=
  ⟨lowConfidence_preserves_gates.1 sampleHandler _ 5 HttpOutcome.timeout (by decide),
   lowConfidence_preserves_gates.2 _ sampleHandler (by decide)⟩

/-- Witness for C9: an event for the held key at time 6 (confidence 1, which
passes the threshold but not the 2-second hold) leaves the first-seen time 5
in place. -/
theorem hold_state_persists_witness :
    (processAll sampleHandlerHeld
      [(⟨some "Open_Palm", some "Right", some 1, none⟩, 6, HttpOutcome.timeout)]).hold_validator.gesture_start_times
      "Open_Palm|Right" = some 5 :=
  hold_state_persists _ sampleHandlerHeld "Open_Palm|Right" 5 (by decide)

/-- Witness for C10: an event with no confidence field on the sample handler
(threshold 1) is dropped at the confidence stage with only the two counters
moving. -/
theorem missing_confidence_below_threshold_witness :
    process_gesture sampleHandler ⟨some "Open_Palm", some "Right", none, none⟩ 5 HttpOutcome.timeout =
      (none, 0, { sampleHandler with stats := { sampleHandler.stats with
        gestures_received := sampleHandler.stats.gestures_received + 1,
        gestures_below_threshold := sampleHandler.stats.gestures_below_threshold + 1 } }) :=
  missing_confidence_below_threshold sampleHandler _ 5 HttpOutcome.timeout rfl (by decide)

theorem find_first_match {α : Type} (p : α → Bool) :
    ∀ (pre : List α) (x : α) (post : List α),
      (∀ y ∈ pre, p y = false) → p x = true →
      List.find? p (pre ++ x :: post) = some x := by
  intro pre
  induction pre with
  | nil =>
    intro x post _ hx
    rw [List.nil_append]
    exact List.find?_cons_of_pos _ hx
  | cons a pre ih =>
    intro x post hpre hx
    have ha : p a = false := hpre a (List.mem_cons_self _ _)
    rw [List.cons_append, List.find?_cons_of_neg]
    · exact ih x post (fun y hy => hpre y (List.mem_cons_of_mem _ hy)) hx
    · simp [ha]

/-- Claim C6: the resolver scans the mappings in declared order and returns
the first one whose gesture equals the event gesture and whose hand is
Either or equals the event hand; no match yields none, a normal outcome. In
particular, with a mapping whose hand is Either listed before one whose hand
is Right, a Right-hand event resolves to the Either mapping. -/
theorem resolver_first_match_spec (m : ConfigManager) (gesture hand : String) :
    (get_mapping_for_gesture m gesture hand = none ↔
      ∀ mp ∈ m.gesture_mappings, mappingMatches mp gesture hand = false) ∧
    (∀ pre mp post, m.gesture_mappings = pre ++ mp :: post →
      (∀ mp2 ∈ pre, mappingMatches mp2 gesture hand = false) →
      mappingMatches mp gesture hand = true →
      get_mapping_for_gesture m gesture hand = some mp) ∧
    (∀ m1 m2 : RawMapping, m1.gesture = some gesture → m1.hand = some "Either" →
      m2.gesture = some gesture → m2.hand = some "Right" →
      ∀ mc : ConfigManager, mc.gesture_mappings = [m1, m2] →
      get_mapping_for_gesture mc gesture "Right" = some m1) := by
  refine ⟨?_, ?_, ?_⟩
  · simp [get_mapping_for_gesture, List.find?_eq_none]
  · intro pre mp post heq hpre hmp
    unfold get_mapping_for_gesture
    rw [heq]
    exact find_first_match _ pre mp post hpre hmp
  · intro m1 m2 h1g h1h _ _ mc hmc
    unfold get_mapping_for_gesture
    rw [hmc]
    exact List.find?_cons_of_pos _ (by simp [mappingMatches, h1g, h1h])

/-- Claim C7: an action whose entity_id or service is absent is rejected
locally: execute_action returns the failure result carrying only the error
text, and the count of HTTP requests issued is zero. -/
theorem dispatch_missing_fields_no_network (action : RawAction) (outcome : HttpOutcome)
    (h : action.entity_id = none ∨ action.service = none) :
    execute_action action outcome =
      ({ success := false, entity_id := none, service := none, message := none,
         error := some "Missing entity_id or service in action",
         status_code := none, response := none }, 0) := by
  unfold execute_action
  rcases h with h | h <;> rw [h] <;> simp [pyTruthy]

/-- Witness for C7: an action with no entity_id, dispatched against a
timeout-outcome world, fails locally with zero HTTP requests. -/
theorem dispatch_missing_fields_no_network_witness :
    execute_action ⟨none, some "turn_on", []⟩ HttpOutcome.timeout =
      ({ success := false, entity_id := none, service := none, message := none,
         error := some "Missing entity_id or service in action",
         status_code := none, response := none }, 0) :=
  dispatch_missing_fields_no_network ⟨none, some "turn_on", []⟩ HttpOutcome.timeout (Or.inl rfl)

/-- Claim C8: for every action and every outcome of the external call,
execute_action returns a result value - at most one HTTP request is issued
(never a retry), a success result carries a message and a failure result
carries an error text. The embedding returns a plain value on every path,
mirroring the source where every branch, including all three except clauses,
returns a dict and none raises. -/
theorem dispatch_returns_value_every_outcome (action : RawAction) (outcome : HttpOutcome) :
    (execute_action action outcome).2 ≤ 1 ∧
    (cond (execute_action action outcome).1.success
      (execute_action action outcome).1.message.isSome
      (execute_action action outcome).1.error.isSome) = true := by
  unfold execute_action
  split_ifs with h
  · simp
  · unfold call_service
    cases outcome with
    | response code body => split <;> simp
    | timeout => simp
    | httpError msg => simp
    | otherError msg => simp

/-- Witness for C6: with the Either mapping listed before the Right mapping
for the same gesture, a Right-hand event resolves to the Either mapping. -/
theorem resolver_first_match_spec_witness :
    get_mapping_for_gesture ⟨none, [eitherMapping, rightMapping], [], []⟩ "Open_Palm" "Right" =
      some eitherMapping :=
  (resolver_first_match_spec ⟨none, [eitherMapping, rightMapping], [], []⟩ "Open_Palm" "Right").2.2
    eitherMapping rightMapping rfl rfl rfl rfl ⟨none, [eitherMapping, rightMapping], [], []⟩ rfl

/-- Counterexample to claim C1 as stated: reloading a file that fails
validation (invalid hand) over a previously valid configuration does report
failure, but the observable gesture mappings after the failed load are the
invalid file's mappings, not the prior ones - load_config overwrites the
configuration fields before validating. -/
theorem config_failed_load_mutates :
    (load_config priorManager (FileRead.parsed (some badConfig))).1 = false ∧
    (load_config priorManager (FileRead.parsed (some badConfig))).2.gesture_mappings ≠
      priorManager.gesture_mappings := by decide

/-- Claim C1 as amended: a load whose validation fails reports false to the
caller, but the configuration state has already been overwritten with the
sections extracted from the new file; the prior configuration survives a
failed load only when the file is missing or fails to parse. Reload is the
same operation as load. -/
theorem config_failed_load_spec :
    (∀ (m : ConfigManager) (c : RawConfig),
      validate_config (extract_sections m c) = false →
      load_config m (FileRead.parsed (some c)) = (false, extract_sections m c)) ∧
    (∀ m : ConfigManager,
      load_config m FileRead.missing = (false, m) ∧
      load_config m FileRead.parseError = (false, m)) ∧
    (∀ (m : ConfigManager) (f : FileRead), reload_config m f = load_config m f) := by
  refine ⟨?_, fun m => ⟨rfl, rfl⟩, fun m f => rfl⟩
  intro m c hval
  show (let m1 := extract_sections m c;
    if validate_config m1 = true then (true, m1) else (false, m1)) = (false, extract_sections m c)
  simp [hval]

/-- Witness for the amended C1: loading the invalid-hand file over the prior
valid configuration returns false with the state overwritten by the new
file's sections. -/
theorem config_failed_load_spec_witness :
    load_config priorManager (FileRead.parsed (some badConfig)) =
      (false, extract_sections priorManager badConfig) :=
  config_failed_load_spec.1 priorManager badConfig (by decide)
